import Mathlib

/-!
Shallow embedding of the client-side state store, dirty-state tracker and
navigation guard of `src/index.tsx` (HardbanRecords-Lab).

The TypeScript store (zustand) holds music releases, books and task lists,
mutated by `addRelease`, `updateMusicSplits`, `addMusicTask`,
`toggleMusicTask`, `addBook`, `updateBook`, `updateChapterContent`,
`addPublishingTask`, `togglePublishingTask`.  Each mutation is a synchronous
in-memory transformation followed by a save call.  Identities come from
`Date.now()`; the embedding passes the clock value explicitly as a `Nat`
argument.  The two editing surfaces (`MusicPublishingView`,
`DigitalPublishingAIView`) keep local edit buffers and guard navigation with
an `isDirty` check and a confirmation modal.
-/

namespace HardbanRecords

/-- `ReleaseCollaborator` / `Collaborator` from src/index.tsx: a split row,
share kept as a string for input control. -/
structure Collaborator where
  name : String
  share : String
deriving DecidableEq, Repr

/-- Release status enum from src/index.tsx. -/
inductive ReleaseStatus
  | live | inReview | submitted | processing
deriving DecidableEq, Repr

/-- `Release` from src/index.tsx. -/
structure Release where
  id : Nat
  title : String
  artist : String
  status : ReleaseStatus
  genre : Option String := none
  releaseDate : Option String := none
  splits : List Collaborator
deriving DecidableEq, Repr

/-- `Task` from src/index.tsx (shared by the music and publishing domains). -/
structure Task where
  id : Nat
  text : String
  dueDate : String
  completed : Bool
deriving DecidableEq, Repr

/-- Book status enum from src/index.tsx. -/
inductive BookStatus
  | published | processing | draft
deriving DecidableEq, Repr

/-- `BookRights` from src/index.tsx. -/
structure BookRights where
  territorial : Bool
  translation : Bool
  adaptation : Bool
  audio : Bool
  drm : Bool
deriving DecidableEq, Repr

/-- `BookChapter` from src/index.tsx. -/
structure BookChapter where
  title : String
  content : String
deriving DecidableEq, Repr

/-- `BookIllustration` from src/index.tsx. -/
structure BookIllustration where
  url : String
  prompt : String
deriving DecidableEq, Repr

/-- `Book` from src/index.tsx. -/
structure Book where
  id : Nat
  title : String
  author : String
  genre : String
  status : BookStatus
  rights : BookRights
  splits : List Collaborator
  chapters : List BookChapter
  blurb : String
  keywords : String
  illustrations : List BookIllustration
  coverImageUrl : String
deriving DecidableEq, Repr

/-- The `music` slice of `AppState`. -/
structure MusicState where
  releases : List Release
  tasks : List Task
deriving DecidableEq, Repr

/-- The `publishing` slice of `AppState`. -/
structure PublishingState where
  books : List Book
  tasks : List Task
deriving DecidableEq, Repr

/-- The persisted part of the store: `music` and `publishing` collections.
UI-adjacent flags (toasts, loading booleans, onboarding) are modelled
separately where a claim needs them. -/
structure AppData where
  music : MusicState
  publishing : PublishingState
deriving DecidableEq, Repr

/-- The store's initial collections (empty, as in the zustand initialiser). -/
def initialAppData : AppData :=
  { music := { releases := [], tasks := [] },
    publishing := { books := [], tasks := [] } }

/-! ### Store mutations (src/index.tsx lines 287-354)

Each TypeScript action does `set(state => ...)` and then triggers a save;
the in-memory transformation is embedded here.  `Date.now()` is the `now`
argument. -/

/-- Payload of `addRelease` (`Omit<Release,'id'|'status'>`). -/
structure ReleaseData where
  title : String
  artist : String
  genre : Option String := none
  releaseDate : Option String := none
  splits : List Collaborator
deriving DecidableEq, Repr

/-- `addRelease`: `{...releaseData, id: Date.now(), status: 'Submitted'}`
appended to `music.releases`. -/
def mkRelease (now : Nat) (d : ReleaseData) : Release :=
  { id := now, title := d.title, artist := d.artist,
    status := .submitted, genre := d.genre, releaseDate := d.releaseDate,
    splits := d.splits }

def addRelease (now : Nat) (d : ReleaseData) (s : AppData) : AppData :=
  { s with music := { s.music with releases := s.music.releases ++ [mkRelease now d] } }

/-- `updateMusicSplits`: map over releases, replacing `splits` on the
releases whose `id` matches. -/
def updateMusicSplits (releaseId : Nat) (splits : List Collaborator) (s : AppData) : AppData :=
  { s with music := { s.music with
      releases := s.music.releases.map (fun r =>
        if r.id = releaseId then { r with splits := splits } else r) } }

/-- `addMusicTask`: append `{id: Date.now(), text, dueDate, completed: false}`. -/
def addMusicTask (now : Nat) (text dueDate : String) (s : AppData) : AppData :=
  { s with music := { s.music with
      tasks := s.music.tasks ++ [{ id := now, text := text, dueDate := dueDate, completed := false }] } }

/-- `toggleMusicTask`: map over tasks, negating `completed` where `id` matches. -/
def toggleMusicTask (id : Nat) (s : AppData) : AppData :=
  { s with music := { s.music with
      tasks := s.music.tasks.map (fun t =>
        if t.id = id then { t with completed := !t.completed } else t) } }

/-- Payload of `addBook` (`Omit<Book,'id'>`). -/
structure BookData where
  title : String
  author : String
  genre : String
  status : BookStatus
  rights : BookRights
  splits : List Collaborator
  chapters : List BookChapter
  blurb : String
  keywords : String
  illustrations : List BookIllustration
  coverImageUrl : String
deriving DecidableEq, Repr

/-- `addBook`: `{...bookData, id: Date.now()}` appended to `publishing.books`. -/
def mkBook (now : Nat) (d : BookData) : Book :=
  { id := now, title := d.title, author := d.author, genre := d.genre,
    status := d.status, rights := d.rights, splits := d.splits,
    chapters := d.chapters, blurb := d.blurb, keywords := d.keywords,
    illustrations := d.illustrations, coverImageUrl := d.coverImageUrl }

def addBook (now : Nat) (d : BookData) (s : AppData) : AppData :=
  { s with publishing := { s.publishing with books := s.publishing.books ++ [mkBook now d] } }

/-- `Partial<Book>` for `updateBook`: absent fields are `none`; the TS spread
`{...b, ...data}` keeps `b`'s field when the patch omits it. -/
structure BookPatch where
  title : Option String := none
  author : Option String := none
  genre : Option String := none
  status : Option BookStatus := none
  rights : Option BookRights := none
  splits : Option (List Collaborator) := none
  chapters : Option (List BookChapter) := none
  blurb : Option String := none
  keywords : Option String := none
  illustrations : Option (List BookIllustration) := none
  coverImageUrl : Option String := none
deriving DecidableEq, Repr

def applyPatch (b : Book) (p : BookPatch) : Book :=
  { b with
    title := p.title.getD b.title
    author := p.author.getD b.author
    genre := p.genre.getD b.genre
    status := p.status.getD b.status
    rights := p.rights.getD b.rights
    splits := p.splits.getD b.splits
    chapters := p.chapters.getD b.chapters
    blurb := p.blurb.getD b.blurb
    keywords := p.keywords.getD b.keywords
    illustrations := p.illustrations.getD b.illustrations
    coverImageUrl := p.coverImageUrl.getD b.coverImageUrl }

/-- `updateBook`: map over books, spreading the patch onto the book whose
`id` matches. -/
def updateBook (bookId : Nat) (data : BookPatch) (s : AppData) : AppData :=
  { s with publishing := { s.publishing with
      books := s.publishing.books.map (fun b =>
        if b.id = bookId then applyPatch b data else b) } }

/-- `updatedChapters[chapterIndex] = {...updatedChapters[chapterIndex], content}`
for an in-range `chapterIndex` (the UI only passes indices of existing
chapters; JS array-index assignment past the end is never exercised). -/
def setChapterContent : List BookChapter → Nat → String → List BookChapter
  | [], _, _ => []
  | c :: cs, 0, content => { c with content := content } :: cs
  | c :: cs, n + 1, content => c :: setChapterContent cs n content

/-- `updateChapterContent`'s in-memory transformation: replace the content of
chapter `chapterIndex` of the book whose `id` matches. -/
def updateChapterContent (bookId chapterIndex : Nat) (content : String) (s : AppData) : AppData :=
  { s with publishing := { s.publishing with
      books := s.publishing.books.map (fun book =>
        if book.id = bookId then
          { book with chapters := setChapterContent book.chapters chapterIndex content }
        else book) } }

/-- `addPublishingTask`: append `{id: Date.now(), text, dueDate, completed: false}`. -/
def addPublishingTask (now : Nat) (text dueDate : String) (s : AppData) : AppData :=
  { s with publishing := { s.publishing with
      tasks := s.publishing.tasks ++ [{ id := now, text := text, dueDate := dueDate, completed := false }] } }

/-- `togglePublishingTask`: map over tasks, negating `completed` where `id` matches. -/
def togglePublishingTask (id : Nat) (s : AppData) : AppData :=
  { s with publishing := { s.publishing with
      tasks := s.publishing.tasks.map (fun t =>
        if t.id = id then { t with completed := !t.completed } else t) } }

/-- The add/update/toggle mutations of the store, as one event type; the
`now` arguments carry the `Date.now()` value observed by the call. -/
inductive Mutation
  | addRelease (now : Nat) (d : ReleaseData)
  | updateMusicSplits (releaseId : Nat) (splits : List Collaborator)
  | addMusicTask (now : Nat) (text dueDate : String)
  | toggleMusicTask (id : Nat)
  | addBook (now : Nat) (d : BookData)
  | updateBook (bookId : Nat) (data : BookPatch)
  | addPublishingTask (now : Nat) (text dueDate : String)
  | togglePublishingTask (id : Nat)

def applyMutation (m : Mutation) (s : AppData) : AppData :=
  match m with
  | .addRelease now d => addRelease now d s
  | .updateMusicSplits rid sp => updateMusicSplits rid sp s
  | .addMusicTask now t dd => addMusicTask now t dd s
  | .toggleMusicTask id => toggleMusicTask id s
  | .addBook now d => addBook now d s
  | .updateBook bid p => updateBook bid p s
  | .addPublishingTask now t dd => addPublishingTask now t dd s
  | .togglePublishingTask id => togglePublishingTask id s

/-- A finite sequence of mutations applied in order. -/
def applyMutations (ms : List Mutation) (s : AppData) : AppData :=
  ms.foldl (fun st m => applyMutation m st) s

/-! ### Toasts and `initializeApp` (src/index.tsx lines 223-254) -/

inductive ToastType
  | success | error
deriving DecidableEq, Repr

/-- `ToastMessage` from src/index.tsx; `id` is the `Date.now()` value at the
time `addToast` ran. -/
structure ToastMessage where
  id : Nat
  message : String
  type : ToastType
deriving DecidableEq, Repr

/-- `addToast`: `toasts: [...state.toasts, {id: Date.now(), message, type}]`. -/
def addToast (now : Nat) (message : String) (type : ToastType)
    (toasts : List ToastMessage) : List ToastMessage :=
  toasts ++ [{ id := now, message := message, type := type }]

/-- The store fields touched by `initializeApp`. -/
structure AppState where
  isInitialized : Bool
  toasts : List ToastMessage
  onboardingComplete : Bool
  data : AppData
deriving DecidableEq, Repr

/-- The zustand initial state: not initialized, no toasts, empty collections. -/
def initialAppState : AppState :=
  { isInitialized := false, toasts := [], onboardingComplete := false,
    data := initialAppData }

/-- Result shape of `api.fetchData()` (the `/api/data` snapshot). -/
structure FetchedData where
  music : MusicState
  publishing : PublishingState
  onboardingComplete : Bool
deriving DecidableEq, Repr

/-- The toast text of `initializeApp`'s catch branch. -/
def initErrorMessage : String :=
  "Could not load data from the server. Please ensure the backend is running."

/-- `initializeApp`: `await api.fetchData()` either returns a snapshot or
throws; the embedding passes the outcome as an `Except`.  On success the
snapshot is written and `isInitialized` set; on failure an error toast is
added and `isInitialized` is still set, the collections keeping their
current (initially empty) values. -/
def initializeApp (fetchResult : Except String FetchedData) (now : Nat)
    (s : AppState) : AppState :=
  match fetchResult with
  | .ok d =>
      { s with data := { music := d.music, publishing := d.publishing },
               onboardingComplete := d.onboardingComplete,
               isInitialized := true }
  | .error _ =>
      let s := { s with toasts := addToast now initErrorMessage .error s.toasts }
      { s with isInitialized := true }

/-! ### Save scheduling for manuscript edits (src/index.tsx lines 325-342)

`updateChapterContent` ends with `setTimeout(() => get()._saveState(), 500)`.
No timer handle is kept and no `clearTimeout` runs for it anywhere in the
source, so every call schedules its own save to fire 500ms after that call.
Every other mutating action instead runs `await get()._saveState()` directly
(save issued at the call's own time). -/

/-- The times at which the saves scheduled by a sequence of
`updateChapterContent` calls (at the given times) fire: one per call,
500ms after it. -/
def scheduledSaveTimes (editTimes : List Nat) : List Nat :=
  editTimes.map (fun t => t + 500)

/-- Modelled from the spec: "free-text content edits are coalesced — a save
is scheduled only after a quiet period (500ms) since the last keystroke":
a debounce fires exactly one save per burst, 500ms after the last edit. -/
def debouncedSaveTimes (editTimes : List Nat) : List Nat :=
  match editTimes.getLast? with
  | none => []
  | some t => [t + 500]

/-! ### Dirty-state tracker (src/index.tsx lines 744-752 and 1344-1357)

`JSON.stringify` (in)equality of collaborator lists is modelled as
structural (in)equality: the rows are records of two strings built with a
fixed key order. -/

/-- JS `String.prototype.trim`: strip leading and trailing whitespace.
(Core `String.trim` is extensionally the same but is defined by
well-founded recursion on byte positions and does not reduce in the
kernel, so the embedding uses this structurally recursive equivalent.) -/
def trimString (s : String) : String :=
  ((s.data.dropWhile Char.isWhitespace).reverse.dropWhile Char.isWhitespace).reverse.asString

/-- The filter both views apply to the edit buffer before comparing/saving:
`collaborators.filter(c => c.name.trim() !== '' || c.share.trim() !== '')`
drops rows whose `name` and `share` are both blank. -/
def cleanSplits (collaborators : List Collaborator) : List Collaborator :=
  collaborators.filter (fun c => trimString c.name != "" || trimString c.share != "")

/-- The spec's `normalize`: blank rows removed (same filter).  The spec
applies it to both the buffer and the saved list. -/
def normalize (rows : List Collaborator) : List Collaborator :=
  cleanSplits rows

/-- `releases.find(r => r.id === parseInt(selectedReleaseId, 10))`; the
selection is `none` when no id is selected. -/
def selectedReleaseOf (releases : List Release) (sid : Option Nat) : Option Release :=
  match sid with
  | none => none
  | some id => releases.find? (fun r => r.id = id)

/-- `books.find(b => b.id === parseInt(selectedBookId, 10))`. -/
def selectedBookOf (books : List Book) (sid : Option Nat) : Option Book :=
  match sid with
  | none => none
  | some id => books.find? (fun b => b.id = id)

/-- `isDirty` of `MusicPublishingView` (lines 744-752): false unless a
release is selected and the splits tab is active; otherwise the buffer with
blank rows filtered out is compared against the release's saved splits
as-is. -/
def isDirtyMusic (selectedRelease : Option Release) (activeTab : String)
    (collaborators : List Collaborator) : Bool :=
  match selectedRelease with
  | none => false
  | some r =>
      if activeTab != "splits" then false
      else cleanSplits collaborators != r.splits

/-- `areSplitsDirty` of `DigitalPublishingAIView` (lines 1344-1351). -/
def areSplitsDirtyPub (selectedBook : Option Book) (activeTab : String)
    (collaborators : List Collaborator) : Bool :=
  match selectedBook with
  | none => false
  | some b =>
      if activeTab != "rights_splits" then false
      else cleanSplits collaborators != b.splits

/-- `isDirty` of `DigitalPublishingAIView` (lines 1353-1357). -/
def isDirtyPub (activeTab : String) (isManuscriptDirty : Bool)
    (splitsDirty : Bool) : Bool :=
  if activeTab = "studio" then isManuscriptDirty
  else if activeTab = "rights_splits" then splitsDirty
  else false

/-! ### Navigation guard (src/index.tsx lines 754-761, 995-1016, 1359-1366,
1714-1748)

Both views keep `isNavModalOpen` and `nextNavigationAction` in local state;
the captured action is an arbitrary closure over the view state, modelled as
a function `V → V` on an abstract view-state type. -/

/-- The guard's local state: the confirmation-modal flag and the single
captured pending action. -/
structure NavGuard (V : Type) where
  navModalOpen : Bool
  nextNavigationAction : Option (V → V)

/-- The guard with the modal closed and no pending action (`Idle`). -/
def guardIdle {V : Type} : NavGuard V :=
  { navModalOpen := false, nextNavigationAction := none }

/-- `handleNavigate` (both views): while dirty, capture the action and open
the modal without running the action; otherwise run the action at once,
leaving the guard untouched. -/
def handleNavigate {V : Type} (isDirty : Bool) (action : V → V)
    (g : NavGuard V) (v : V) : NavGuard V × V :=
  if isDirty then
    ({ navModalOpen := true, nextNavigationAction := some action }, v)
  else
    (g, action v)

/-- `handleCancelNavigation` (both views): close the modal, drop the action. -/
def handleCancelNavigation {V : Type} (_g : NavGuard V) : NavGuard V :=
  { navModalOpen := false, nextNavigationAction := none }

/-- `if (nextNavigationAction) nextNavigationAction();` -/
def runPending {V : Type} (g : NavGuard V) (v : V) : V :=
  match g.nextNavigationAction with
  | some a => a v
  | none => v

/-- `handleSaveSplits` of `MusicPublishingView` (lines 894-902): no-op
without a selection; otherwise commit the cleaned buffer to the store via
`updateMusicSplits` and reset the local buffer to the cleaned list.  (The
success toast it also adds is not modelled here.) -/
def handleSaveSplitsMusic (selectedRelease : Option Release)
    (collaborators : List Collaborator) (s : AppData) :
    List Collaborator × AppData :=
  match selectedRelease with
  | none => (collaborators, s)
  | some r =>
      let cleaned := cleanSplits collaborators
      (cleaned, updateMusicSplits r.id cleaned s)

/-- `handleDiscardAndNavigate` of `MusicPublishingView` (lines 1000-1008):
reset the buffer to the selected release's stored splits, run the pending
action, close the modal and clear the pending action. -/
def handleDiscardAndNavigateMusic {V : Type} (selectedRelease : Option Release)
    (g : NavGuard V) (collaborators : List Collaborator) (v : V) :
    NavGuard V × List Collaborator × V :=
  let collaborators :=
    match selectedRelease with
    | some r => r.splits
    | none => collaborators
  (handleCancelNavigation g, collaborators, runPending g v)

/-- `handleSaveAndNavigate` of `MusicPublishingView` (lines 1010-1016):
`handleSaveSplits()`, then the pending action, then cancel. -/
def handleSaveAndNavigateMusic {V : Type} (selectedRelease : Option Release)
    (g : NavGuard V) (collaborators : List Collaborator) (s : AppData)
    (v : V) : NavGuard V × List Collaborator × AppData × V :=
  let (collaborators, s) := handleSaveSplitsMusic selectedRelease collaborators s
  (handleCancelNavigation g, collaborators, s, runPending g v)

/-! ### DigitalPublishingAIView editing surface (src/index.tsx lines
1305-1366, 1440-1455, 1493-1500, 1647-1653, 1714-1748) -/

/-- The component-local editor state of `DigitalPublishingAIView` used by
the dirty tracker and the navigation guard. -/
structure PubLocal where
  manuscriptText : String
  manuscriptDirty : Bool
  collaborators : List Collaborator
deriving Repr

/-- `selectedBook.chapters[activeChapterIndex]?.content || ''`. -/
def chapterContentOrEmpty (chapters : List BookChapter) (i : Nat) : String :=
  match chapters.get? i with
  | some c => c.content
  | none => ""

/-- `handleManuscriptChange` (lines 1493-1500): update the buffer, mark it
dirty, and propagate the new content into the store through
`updateChapterContent` (whose debounced save is modelled separately). -/
def handleManuscriptChange (newContent : String) (selectedBook : Option Book)
    (activeChapterIndex : Nat) (loc : PubLocal) (s : AppData) :
    PubLocal × AppData :=
  let loc := { loc with manuscriptText := newContent, manuscriptDirty := true }
  match selectedBook with
  | some b => (loc, updateChapterContent b.id activeChapterIndex newContent s)
  | none => (loc, s)

/-- `handleSaveSplits` of `DigitalPublishingAIView` (lines 1647-1653):
commit the cleaned buffer via `updateBook` and reset the local buffer.
(The success toast is not modelled.) -/
def handleSaveSplitsPub (selectedBook : Option Book)
    (collaborators : List Collaborator) (s : AppData) :
    List Collaborator × AppData :=
  match selectedBook with
  | none => (collaborators, s)
  | some b =>
      let cleaned := cleanSplits collaborators
      (cleaned, updateBook b.id { splits := some cleaned } s)

/-- `handleDiscardAndNavigate` of `DigitalPublishingAIView` (lines
1720-1733): on the studio tab reset the manuscript buffer to the selected
book's current chapter content and clear the dirty flag; on the
rights-splits tab reset the collaborator buffer to the book's stored
splits; then run the pending action and cancel. -/
def handleDiscardAndNavigatePub {V : Type} (activeTab : String)
    (selectedBook : Option Book) (activeChapterIndex : Nat)
    (g : NavGuard V) (loc : PubLocal) (v : V) :
    NavGuard V × PubLocal × V :=
  let loc :=
    match selectedBook with
    | some b =>
        let loc :=
          if activeTab = "studio" then
            { loc with
              manuscriptText := chapterContentOrEmpty b.chapters activeChapterIndex,
              manuscriptDirty := false }
          else loc
        if activeTab = "rights_splits" then
          { loc with collaborators := b.splits }
        else loc
    | none => loc
  (handleCancelNavigation g, loc, runPending g v)

/-- `handleSaveAndNavigate` of `DigitalPublishingAIView` (lines 1735-1748):
on the studio tab `forceSave()` (no in-memory change) and clear the dirty
flag; on the rights-splits tab `handleSaveSplits()`; then run the pending
action and cancel. -/
def handleSaveAndNavigatePub {V : Type} (activeTab : String)
    (selectedBook : Option Book) (g : NavGuard V) (loc : PubLocal)
    (s : AppData) (v : V) : NavGuard V × PubLocal × AppData × V :=
  let loc :=
    if activeTab = "studio" && selectedBook.isSome then
      { loc with manuscriptDirty := false }
    else loc
  let (loc, s) :=
    if activeTab = "rights_splits" then
      let (c, s) := handleSaveSplitsPub selectedBook loc.collaborators s
      ({ loc with collaborators := c }, s)
    else (loc, s)
  (handleCancelNavigation g, loc, s, runPending g v)

/-! ### Helper lemmas -/

theorem cleanSplits_idem (l : List Collaborator) :
    cleanSplits (cleanSplits l) = cleanSplits l := by
  unfold cleanSplits
  rw [List.filter_filter]
  simp

theorem cleanSplits_append (l m : List Collaborator) :
    cleanSplits (l ++ m) = cleanSplits l ++ cleanSplits m :=
  List.filter_append l m

theorem toggle_map_toggle_map (id : Nat) (l : List Task) :
    l.map ((fun t => if t.id = id then { t with completed := !t.completed } else t) ∘
           (fun t => if t.id = id then { t with completed := !t.completed } else t)) = l := by
  induction l with
  | nil => rfl
  | cons t ts ih =>
    obtain ⟨tid, ttext, tdue, tc⟩ := t
    simp only [List.map_cons, ih, Function.comp]
    by_cases h : tid = id <;> simp [h]

theorem toggle_map_missing_id (id : Nat) (l : List Task)
    (h : ∀ t ∈ l, t.id ≠ id) :
    (l.map fun t => if t.id = id then { t with completed := !t.completed } else t) = l := by
  induction l with
  | nil => rfl
  | cons t ts ih =>
    simp only [List.map_cons]
    rw [if_neg (h t (by simp)), ih (fun x hx => h x (by simp [hx]))]

/-! ### Theorems for the claims -/

/-- C2: for every requested navigation action, if the dirty tracker reports
dirty then `handleNavigate` does not run the action (the view state is
returned unchanged), stores it as the single pending action and opens the
confirmation modal; if not dirty it runs the action immediately and leaves
the guard (hence the closed modal) untouched. -/
theorem handleNavigate_dirty_captures_clean_executes {V : Type}
    (isDirty : Bool) (action : V → V) (g : NavGuard V) (v : V) :
    (isDirty = true →
       (handleNavigate isDirty action g v).2 = v ∧
       (handleNavigate isDirty action g v).1.nextNavigationAction = some action ∧
       (handleNavigate isDirty action g v).1.navModalOpen = true) ∧
    (isDirty = false →
       (handleNavigate isDirty action g v).2 = action v ∧
       (handleNavigate isDirty action g v).1 = g) := by
  cases isDirty <;> simp [handleNavigate]

theorem handleNavigate_dirty_captures_clean_executes_witness :
    (handleNavigate true (fun n => n + 1) (guardIdle (V := Nat)) 0).2 = 0 ∧
    (handleNavigate true (fun n => n + 1) (guardIdle (V := Nat)) 0).1.navModalOpen = true ∧
    (handleNavigate false (fun n => n + 1) (guardIdle (V := Nat)) 0).2 = 1 ∧
    (handleNavigate false (fun n => n + 1) (guardIdle (V := Nat)) 0).1 = guardIdle := by
  refine ⟨?_, ?_, ?_, ?_⟩
  · exact ((handleNavigate_dirty_captures_clean_executes true (fun n => n + 1)
      guardIdle 0).1 rfl).1
  · exact ((handleNavigate_dirty_captures_clean_executes true (fun n => n + 1)
      guardIdle 0).1 rfl).2.2
  · exact ((handleNavigate_dirty_captures_clean_executes false (fun n => n + 1)
      guardIdle 0).2 rfl).1
  · exact ((handleNavigate_dirty_captures_clean_executes false (fun n => n + 1)
      guardIdle 0).2 rfl).2

/-- C6 (code bug): for edits at 0ms and 100ms — within 500ms of one
another — `updateChapterContent`'s `setTimeout(save, 500)` with no
`clearTimeout` fires one save per edit (at 500ms and 600ms), not the single
coalesced save at 600ms that the code's own "Debounce saving" comment and
the spec describe. -/
theorem updateChapterContent_one_save_per_edit :
    scheduledSaveTimes [0, 100] = [500, 600] ∧
    (scheduledSaveTimes [0, 100]).length = 2 ∧
    debouncedSaveTimes [0, 100] = [600] ∧
    scheduledSaveTimes [0, 100] ≠ debouncedSaveTimes [0, 100] := by
  refine ⟨rfl, rfl, rfl, by decide⟩

/-- C7: when the startup snapshot fetch fails, `initializeApp` adds the
user-visible error toast, leaves the music and publishing collections at
their initial empty values, and still sets `isInitialized`; the handler is
a total function of the fetch outcome, so no failure escapes it. -/
theorem initializeApp_failure_degrades_gracefully (e : String) (now : Nat) :
    (initializeApp (.error e) now initialAppState).isInitialized = true ∧
    (initializeApp (.error e) now initialAppState).data.music.releases = [] ∧
    (initializeApp (.error e) now initialAppState).data.music.tasks = [] ∧
    (initializeApp (.error e) now initialAppState).data.publishing.books = [] ∧
    (initializeApp (.error e) now initialAppState).data.publishing.tasks = [] ∧
    (initializeApp (.error e) now initialAppState).toasts =
      [{ id := now, message := initErrorMessage, type := .error }] := by
  exact ⟨rfl, rfl, rfl, rfl, rfl, rfl⟩

/-- C10: toggling the same task id twice returns the whole store to exactly
its original value, and a toggle whose id matches no task leaves the store
unchanged; both for the music and the publishing task collections. -/
theorem toggleTask_involution_and_missing_noop (s : AppData) (id : Nat) :
    toggleMusicTask id (toggleMusicTask id s) = s ∧
    togglePublishingTask id (togglePublishingTask id s) = s ∧
    ((∀ t ∈ s.music.tasks, t.id ≠ id) → toggleMusicTask id s = s) ∧
    ((∀ t ∈ s.publishing.tasks, t.id ≠ id) → togglePublishingTask id s = s) := by
  obtain ⟨⟨rel, mt⟩, ⟨bk, pt⟩⟩ := s
  refine ⟨?_, ?_, fun h => ?_, fun h => ?_⟩
  · simp [toggleMusicTask, toggle_map_toggle_map]
  · simp [togglePublishingTask, toggle_map_toggle_map]
  · simp [toggleMusicTask, toggle_map_missing_id id mt h]
  · simp [togglePublishingTask, toggle_map_missing_id id pt h]

/-- A small concrete store used by witnesses. -/
def sampleTask : Task := { id := 1, text := "demo", dueDate := "", completed := false }

def sampleData : AppData :=
  { music := { releases := [], tasks := [sampleTask] },
    publishing := { books := [], tasks := [sampleTask] } }

theorem toggleTask_involution_and_missing_noop_witness :
    toggleMusicTask 2 sampleData = sampleData ∧
    togglePublishingTask 2 sampleData = sampleData := by
  exact ⟨(toggleTask_involution_and_missing_noop sampleData 2).2.2.1 (by decide),
         (toggleTask_involution_and_missing_noop sampleData 2).2.2.2 (by decide)⟩

/-- A completely blank collaborator row (the "new row" placeholder added by
`handleAddCollaborator`). -/
def blankRow : Collaborator := { name := "", share := "" }

/-- A release whose stored `splits` contain a blank row — e.g. as delivered
by the backend snapshot, which the views never normalize. -/
def releaseWithBlankSavedRow : Release :=
  { id := 1, title := "Neon Pulse", artist := "Synth Rider",
    status := .submitted, splits := [blankRow] }

/-- A release whose stored splits are the normalized `A/60, B/40` list. -/
def releaseA : Release :=
  { id := 2, title := "T", artist := "A", status := .live,
    splits := [{ name := "A", share := "60" }, { name := "B", share := "40" }] }

/-- C1 counterexample: with buffer `[]` and saved splits `[blankRow]` the
two sides are equal after removing blank rows from both, yet `isDirty` is
true — the code filters blank rows from the buffer only, never from the
saved side. -/
theorem isDirty_true_despite_normalize_eq :
    normalize [] = normalize releaseWithBlankSavedRow.splits ∧
    isDirtyMusic (some releaseWithBlankSavedRow) "splits" [] = true := by
  exact ⟨by decide, by decide⟩

/-- C1 corrected: blank rows are removed from the buffer side only, so the
check returns false whenever the cleaned buffer equals the saved list
as-is; in particular `normalize B = normalize S` suffices when the saved
list is itself unchanged by normalization (contains no blank row). -/
theorem isDirtyMusic_false_of_normalized (r : Release) (tab : String)
    (B : List Collaborator)
    (hS : normalize r.splits = r.splits)
    (hB : normalize B = normalize r.splits) :
    isDirtyMusic (some r) tab B = false := by
  have hc : cleanSplits B = r.splits := by
    simpa [normalize] using hB.trans hS
  simp [isDirtyMusic, hc]

theorem isDirtyMusic_false_of_normalized_witness :
    isDirtyMusic (some releaseA) "splits" (blankRow :: releaseA.splits) = false := by
  exact isDirtyMusic_false_of_normalized releaseA "splits"
    (blankRow :: releaseA.splits) (by decide) (by decide)

/-- C9 counterexample: a buffer equal to the saved splits `[blankRow]` with
one more empty row appended makes the check report dirty: the saved side is
never normalized, so the empty-row exclusion does not make the two sides
meet. -/
theorem append_empty_row_dirty_with_blank_saved :
    isDirtyMusic (some releaseWithBlankSavedRow) "splits"
      (releaseWithBlankSavedRow.splits ++ [{ name := "", share := "" }]) = true := by
  decide

/-- C9 corrected: provided the saved splits contain no blank row, appending
one empty collaborator row to a buffer equal to them keeps the dirty check
at false. -/
theorem append_empty_row_keeps_clean (r : Release) (tab : String)
    (B : List Collaborator)
    (hS : normalize r.splits = r.splits) (hB : B = r.splits) :
    isDirtyMusic (some r) tab (B ++ [{ name := "", share := "" }]) = false := by
  have hc : cleanSplits (B ++ [{ name := "", share := "" }]) = r.splits := by
    rw [cleanSplits_append, hB]
    have h2 : cleanSplits [{ name := "", share := "" }] = [] := by decide
    rw [h2, List.append_nil]
    simpa [normalize] using hS
  simp [isDirtyMusic, hc]

theorem append_empty_row_keeps_clean_witness :
    isDirtyMusic (some releaseA) "splits"
      (releaseA.splits ++ [{ name := "", share := "" }]) = false := by
  exact append_empty_row_keeps_clean releaseA "splits" releaseA.splits
    (by decide) rfl

/-! ### C8: identity assignment -/

def releaseDataOne : ReleaseData := { title := "t1", artist := "a1", splits := [] }

def releaseDataTwo : ReleaseData := { title := "t2", artist := "a2", splits := [] }

/-- Two `addRelease` calls observing the same `Date.now()` value. -/
def collisionStore : AppData :=
  addRelease 1000 releaseDataTwo (addRelease 1000 releaseDataOne initialAppData)

/-- C8 counterexample: ids come from `Date.now()`, so two adds within the
same millisecond assign the same id — the second entity's identity is not
distinct from the one already present. -/
theorem add_same_millisecond_id_collision :
    collisionStore.music.releases.map Release.id = [1000, 1000] ∧
    ¬ (collisionStore.music.releases.map Release.id).Nodup := by
  exact ⟨by decide, by decide⟩

/-- C8 corrected: an add assigns the current `Date.now()` timestamp as the
id and appends the entity; the id is distinct from every entity already in
the collection exactly when no present entity carries that timestamp — so
freshness holds whenever the clock value is new, but adds in the same
millisecond collide. -/
theorem add_assigns_timestamp_id (s : AppData) (now : Nat) :
    (∀ d, (addRelease now d s).music.releases = s.music.releases ++ [mkRelease now d] ∧
          (mkRelease now d).id = now ∧
          ((∀ r ∈ s.music.releases, r.id ≠ now) →
             ∀ r ∈ s.music.releases, r.id ≠ (mkRelease now d).id)) ∧
    (∀ d, (addBook now d s).publishing.books = s.publishing.books ++ [mkBook now d] ∧
          (mkBook now d).id = now ∧
          ((∀ b ∈ s.publishing.books, b.id ≠ now) →
             ∀ b ∈ s.publishing.books, b.id ≠ (mkBook now d).id)) ∧
    (∀ text dd, (addMusicTask now text dd s).music.tasks
          = s.music.tasks ++ [{ id := now, text := text, dueDate := dd, completed := false }] ∧
          ((∀ t ∈ s.music.tasks, t.id ≠ now) →
             ∀ t ∈ s.music.tasks,
               t.id ≠ (Task.mk now text dd false).id)) ∧
    (∀ text dd, (addPublishingTask now text dd s).publishing.tasks
          = s.publishing.tasks ++ [{ id := now, text := text, dueDate := dd, completed := false }] ∧
          ((∀ t ∈ s.publishing.tasks, t.id ≠ now) →
             ∀ t ∈ s.publishing.tasks,
               t.id ≠ (Task.mk now text dd false).id)) := by
  refine ⟨fun d => ⟨rfl, rfl, fun h => h⟩,
          fun d => ⟨rfl, rfl, fun h => h⟩,
          fun text dd => ⟨rfl, fun h => h⟩,
          fun text dd => ⟨rfl, fun h => h⟩⟩

theorem add_assigns_timestamp_id_witness :
    (addRelease 5 releaseDataOne sampleData).music.releases
      = sampleData.music.releases ++ [mkRelease 5 releaseDataOne] ∧
    (∀ r ∈ sampleData.music.releases, r.id ≠ (mkRelease 5 releaseDataOne).id) := by
  have h := (add_assigns_timestamp_id sampleData 5).1 releaseDataOne
  exact ⟨h.1, h.2.2 (by decide)⟩

/-! ### C3: the Discard resolution -/

def sampleRights : BookRights :=
  { territorial := true, translation := false, adaptation := false,
    audio := false, drm := true }

def originalBook : Book :=
  { id := 1, title := "B", author := "A", genre := "Sci-Fi", status := .draft,
    rights := sampleRights, splits := [{ name := "A", share := "100" }],
    chapters := [{ title := "Chapter 1", content := "original" }],
    blurb := "", keywords := "", illustrations := [], coverImageUrl := "" }

def bookStore : AppData :=
  { music := { releases := [], tasks := [] },
    publishing := { books := [originalBook], tasks := [] } }

def pubLocal0 : PubLocal :=
  { manuscriptText := "original", manuscriptDirty := false, collaborators := [] }

/-- A keystroke changing the chapter text from "original" to "edited": the
buffer is updated and the new content is propagated into the store. -/
def afterManuscriptEdit : PubLocal × AppData :=
  handleManuscriptChange "edited" (selectedBookOf bookStore.publishing.books (some 1))
    0 pubLocal0 bookStore

/-- Discarding right after that keystroke, with a pending tab change. -/
def discardResult : NavGuard String × PubLocal × String :=
  handleDiscardAndNavigatePub "studio"
    (selectedBookOf afterManuscriptEdit.2.publishing.books (some 1)) 0
    { navModalOpen := true, nextNavigationAction := some (fun _ => "distribution") }
    afterManuscriptEdit.1 "studio"

/-- C3 counterexample: manuscript keystrokes reach the store through
`updateChapterContent` before any save completes, so Discard restores the
buffer from the already-edited store value: after editing "original" to
"edited" and discarding, the buffer still holds "edited" — the local edit
made since the last completed save is kept, not dropped. -/
theorem discard_keeps_propagated_manuscript_edit :
    chapterContentOrEmpty originalBook.chapters 0 = "original" ∧
    discardResult.2.1.manuscriptText = "edited" ∧
    discardResult.2.1.manuscriptText ≠ chapterContentOrEmpty originalBook.chapters 0 := by
  exact ⟨by decide, by decide, by decide⟩

/-- C3 corrected: Discard restores the edit buffer to the entity's current
in-store field value, then executes the captured action and returns to
idle.  For collaborator splits (which reach the store only via an explicit
save) this drops all local edits; manuscript edits are propagated to the
store on every keystroke, so the manuscript buffer is restored to the
current (possibly already edited) chapter content rather than to the value
in the last persisted snapshot. -/
theorem discard_restores_store_value_and_navigates {V : Type}
    (g : NavGuard V) (a : V → V) (hg : g.nextNavigationAction = some a) (v : V) :
    (∀ (r : Release) (c : List Collaborator),
       handleDiscardAndNavigateMusic (some r) g c v = (guardIdle, r.splits, a v)) ∧
    (∀ (b : Book) (idx : Nat) (loc : PubLocal),
       handleDiscardAndNavigatePub "studio" (some b) idx g loc v =
         (guardIdle,
          { loc with manuscriptText := chapterContentOrEmpty b.chapters idx,
                     manuscriptDirty := false }, a v)) ∧
    (∀ (b : Book) (idx : Nat) (loc : PubLocal),
       handleDiscardAndNavigatePub "rights_splits" (some b) idx g loc v =
         (guardIdle, { loc with collaborators := b.splits }, a v)) := by
  refine ⟨fun r c => ?_, fun b idx loc => ?_, fun b idx loc => ?_⟩
  · simp [handleDiscardAndNavigateMusic, handleCancelNavigation, guardIdle, runPending, hg]
  · simp [handleDiscardAndNavigatePub, handleCancelNavigation, guardIdle, runPending, hg]
  · simp [handleDiscardAndNavigatePub, handleCancelNavigation, guardIdle, runPending, hg]

/-- A guard holding a captured action, over `Nat` as the view state. -/
def gPendingNat : NavGuard Nat :=
  { navModalOpen := true, nextNavigationAction := some (fun n => n + 1) }

theorem discard_restores_store_value_and_navigates_witness :
    handleDiscardAndNavigateMusic (some releaseA) gPendingNat [] 0
      = (guardIdle, releaseA.splits, 1) := by
  exact (discard_restores_store_value_and_navigates gPendingNat
    (fun n => n + 1) rfl 0).1 releaseA []

/-! ### C4: the Save & Continue resolution -/

theorem find?_map_preserving {α : Type _} (l : List α) (p : α → Bool) (f : α → α)
    (h : ∀ x, p (f x) = p x) :
    (l.map f).find? p = (l.find? p).map f := by
  rw [List.find?_map]
  have hpf : p ∘ f = p := funext h
  rw [hpf]

theorem applyPatch_splits (b : Book) (cs : List Collaborator) :
    applyPatch b { splits := some cs } = { b with splits := cs } := rfl

/-- C4: resolving Save & Continue commits the cleaned edit buffer to the
store, executes the captured navigation action, returns the guard to idle,
and the dirty check reports false immediately afterwards — for every tab
the executed action can have selected.  In the music view the captured
actions only change the view or the active tab (the release selection is
not routed through the guard), so the check is evaluated at the unchanged
selection; the publishing view is covered for its studio (manuscript) and
rights-splits surfaces. -/
theorem saveAndNavigate_commits_and_clears_dirty {V : Type}
    (g : NavGuard V) (a : V → V) (hg : g.nextNavigationAction = some a) :
    (∀ (s : AppData) (sid : Nat) (r : Release)
       (hr : s.music.releases.find? (fun x => x.id = sid) = some r)
       (c : List Collaborator) (v : V),
       handleSaveAndNavigateMusic (some r) g c s v
         = (guardIdle, cleanSplits c, updateMusicSplits r.id (cleanSplits c) s, a v) ∧
       selectedReleaseOf (updateMusicSplits r.id (cleanSplits c) s).music.releases (some sid)
         = some { r with splits := cleanSplits c } ∧
       (∀ tab, isDirtyMusic
           (selectedReleaseOf (updateMusicSplits r.id (cleanSplits c) s).music.releases (some sid))
           tab (cleanSplits c) = false)) ∧
    (∀ (b : Book) (loc : PubLocal) (s : AppData) (v : V),
       handleSaveAndNavigatePub "studio" (some b) g loc s v
         = (guardIdle, { loc with manuscriptDirty := false }, s, a v) ∧
       (∀ sd, isDirtyPub "studio"
           ({ loc with manuscriptDirty := false } : PubLocal).manuscriptDirty sd = false)) ∧
    (∀ (s : AppData) (sid : Nat) (b : Book)
       (hb : s.publishing.books.find? (fun x => x.id = sid) = some b)
       (loc : PubLocal) (v : V),
       handleSaveAndNavigatePub "rights_splits" (some b) g loc s v
         = (guardIdle, { loc with collaborators := cleanSplits loc.collaborators },
            updateBook b.id { splits := some (cleanSplits loc.collaborators) } s, a v) ∧
       selectedBookOf
           (updateBook b.id { splits := some (cleanSplits loc.collaborators) } s).publishing.books
           (some sid)
         = some { b with splits := cleanSplits loc.collaborators } ∧
       (∀ tab, areSplitsDirtyPub
           (selectedBookOf
             (updateBook b.id { splits := some (cleanSplits loc.collaborators) } s).publishing.books
             (some sid))
           tab (cleanSplits loc.collaborators) = false)) := by
  refine ⟨fun s sid r hr c v => ?_, fun b loc s v => ?_, fun s sid b hb loc v => ?_⟩
  · have hsel : selectedReleaseOf
        (updateMusicSplits r.id (cleanSplits c) s).music.releases (some sid)
        = some { r with splits := cleanSplits c } := by
      have hid : ∀ x : Release,
          ((fun x : Release => decide (x.id = sid))
             (if x.id = r.id then { x with splits := cleanSplits c } else x))
            = (fun x : Release => decide (x.id = sid)) x := by
        intro x
        by_cases h : x.id = r.id <;> simp [h]
      show ((s.music.releases.map
          (fun x => if x.id = r.id then { x with splits := cleanSplits c } else x)).find?
            (fun x => decide (x.id = sid)))
          = some { r with splits := cleanSplits c }
      rw [find?_map_preserving _ _ _ hid, hr]
      simp
    refine ⟨?_, hsel, fun tab => ?_⟩
    · simp [handleSaveAndNavigateMusic, handleSaveSplitsMusic,
        handleCancelNavigation, guardIdle, runPending, hg]
    · rw [hsel]
      simp [isDirtyMusic, cleanSplits_idem]
  · refine ⟨?_, fun sd => ?_⟩
    · simp [handleSaveAndNavigatePub, handleCancelNavigation, guardIdle, runPending, hg]
    · simp [isDirtyPub]
  · have hsel : selectedBookOf
        (updateBook b.id { splits := some (cleanSplits loc.collaborators) } s).publishing.books
        (some sid)
        = some { b with splits := cleanSplits loc.collaborators } := by
      have hid : ∀ x : Book,
          ((fun x : Book => decide (x.id = sid))
             (if x.id = b.id
              then applyPatch x { splits := some (cleanSplits loc.collaborators) } else x))
            = (fun x : Book => decide (x.id = sid)) x := by
        intro x
        by_cases h : x.id = b.id <;> simp [h, applyPatch]
      show ((s.publishing.books.map
          (fun x => if x.id = b.id
             then applyPatch x { splits := some (cleanSplits loc.collaborators) } else x)).find?
            (fun x => decide (x.id = sid)))
          = some { b with splits := cleanSplits loc.collaborators }
      rw [find?_map_preserving _ _ _ hid, hb]
      simp [applyPatch_splits]
    refine ⟨?_, hsel, fun tab => ?_⟩
    · simp [handleSaveAndNavigatePub, handleSaveSplitsPub,
        handleCancelNavigation, guardIdle, runPending, hg]
    · rw [hsel]
      simp [areSplitsDirtyPub, cleanSplits_idem]

/-- A store holding `releaseA`, for the C4 witness. -/
def musicStore : AppData :=
  { music := { releases := [releaseA], tasks := [] },
    publishing := { books := [], tasks := [] } }

theorem saveAndNavigate_commits_and_clears_dirty_witness :
    handleSaveAndNavigateMusic (some releaseA) gPendingNat [] musicStore 0
      = (guardIdle, cleanSplits [], updateMusicSplits releaseA.id (cleanSplits []) musicStore, 1) ∧
    isDirtyMusic
      (selectedReleaseOf
        (updateMusicSplits releaseA.id (cleanSplits []) musicStore).music.releases (some 2))
      "splits" (cleanSplits []) = false := by
  have h := (saveAndNavigate_commits_and_clears_dirty gPendingNat
    (fun n => n + 1) rfl).1 musicStore 2 releaseA (by decide) [] 0
  exact ⟨h.1, h.2.2 "splits"⟩

/-! ### C5: net effect of mutation sequences -/

/-- C5: each store mutation has exactly its stated net effect: adds append
the new entity at the end of their collection; updates and toggles
transform the collection pointwise, changing exactly the entries whose id
matches and leaving every entry with a different id at its position
unchanged (no lost updates for disjoint entities); every mutation leaves
the sibling collection and the other domain untouched; and a sequence of
mutations is their in-order composition. -/
theorem mutations_net_effect (s : AppData) :
    (∀ now d, (addRelease now d s).music.releases = s.music.releases ++ [mkRelease now d] ∧
              (addRelease now d s).music.tasks = s.music.tasks ∧
              (addRelease now d s).publishing = s.publishing) ∧
    (∀ now text dd, (addMusicTask now text dd s).music.tasks
          = s.music.tasks ++ [{ id := now, text := text, dueDate := dd, completed := false }] ∧
        (addMusicTask now text dd s).music.releases = s.music.releases ∧
        (addMusicTask now text dd s).publishing = s.publishing) ∧
    (∀ now d, (addBook now d s).publishing.books = s.publishing.books ++ [mkBook now d] ∧
              (addBook now d s).publishing.tasks = s.publishing.tasks ∧
              (addBook now d s).music = s.music) ∧
    (∀ now text dd, (addPublishingTask now text dd s).publishing.tasks
          = s.publishing.tasks ++ [{ id := now, text := text, dueDate := dd, completed := false }] ∧
        (addPublishingTask now text dd s).publishing.books = s.publishing.books ∧
        (addPublishingTask now text dd s).music = s.music) ∧
    (∀ rid sp i, (updateMusicSplits rid sp s).music.releases.get? i
          = (s.music.releases.get? i).map
              (fun r => if r.id = rid then { r with splits := sp } else r)) ∧
    (∀ rid sp, (updateMusicSplits rid sp s).music.tasks = s.music.tasks ∧
               (updateMusicSplits rid sp s).publishing = s.publishing) ∧
    (∀ rid sp i r, s.music.releases.get? i = some r → r.id ≠ rid →
        (updateMusicSplits rid sp s).music.releases.get? i = some r) ∧
    (∀ bid p i, (updateBook bid p s).publishing.books.get? i
          = (s.publishing.books.get? i).map
              (fun b => if b.id = bid then applyPatch b p else b)) ∧
    (∀ bid p, (updateBook bid p s).publishing.tasks = s.publishing.tasks ∧
              (updateBook bid p s).music = s.music) ∧
    (∀ bid p i b, s.publishing.books.get? i = some b → b.id ≠ bid →
        (updateBook bid p s).publishing.books.get? i = some b) ∧
    (∀ tid i, (toggleMusicTask tid s).music.tasks.get? i
          = (s.music.tasks.get? i).map
              (fun t => if t.id = tid then { t with completed := !t.completed } else t)) ∧
    (∀ tid i t, s.music.tasks.get? i = some t → t.id ≠ tid →
        (toggleMusicTask tid s).music.tasks.get? i = some t) ∧
    (∀ tid, (toggleMusicTask tid s).music.releases = s.music.releases ∧
            (toggleMusicTask tid s).publishing = s.publishing) ∧
    (∀ tid i, (togglePublishingTask tid s).publishing.tasks.get? i
          = (s.publishing.tasks.get? i).map
              (fun t => if t.id = tid then { t with completed := !t.completed } else t)) ∧
    (∀ tid i t, s.publishing.tasks.get? i = some t → t.id ≠ tid →
        (togglePublishingTask tid s).publishing.tasks.get? i = some t) ∧
    (∀ tid, (togglePublishingTask tid s).publishing.books = s.publishing.books ∧
            (togglePublishingTask tid s).music = s.music) ∧
    (∀ m ms, applyMutations (m :: ms) s = applyMutations ms (applyMutation m s)) ∧
    (applyMutations [] s = s) := by
  refine ⟨fun now d => ⟨rfl, rfl, rfl⟩,
          fun now text dd => ⟨rfl, rfl, rfl⟩,
          fun now d => ⟨rfl, rfl, rfl⟩,
          fun now text dd => ⟨rfl, rfl, rfl⟩,
          fun rid sp i => List.get?_map _ _ _,
          fun rid sp => ⟨rfl, rfl⟩,
          fun rid sp i r hr hne => ?_,
          fun bid p i => List.get?_map _ _ _,
          fun bid p => ⟨rfl, rfl⟩,
          fun bid p i b hb hne => ?_,
          fun tid i => List.get?_map _ _ _,
          fun tid i t ht hne => ?_,
          fun tid => ⟨rfl, rfl⟩,
          fun tid i => List.get?_map _ _ _,
          fun tid i t ht hne => ?_,
          fun tid => ⟨rfl, rfl⟩,
          fun m ms => rfl,
          rfl⟩
  · show ((s.music.releases.map
        (fun x => if x.id = rid then { x with splits := sp } else x)).get? i) = some r
    rw [List.get?_map, hr]
    simp [hne]
  · show ((s.publishing.books.map
        (fun x => if x.id = bid then applyPatch x p else x)).get? i) = some b
    rw [List.get?_map, hb]
    simp [hne]
  · show ((s.music.tasks.map
        (fun x => if x.id = tid then { x with completed := !x.completed } else x)).get? i) = some t
    rw [List.get?_map, ht]
    simp [hne]
  · show ((s.publishing.tasks.map
        (fun x => if x.id = tid then { x with completed := !x.completed } else x)).get? i) = some t
    rw [List.get?_map, ht]
    simp [hne]

theorem mutations_net_effect_witness :
    (toggleMusicTask 2 sampleData).music.tasks.get? 0 = some sampleTask := by
  obtain ⟨-, -, -, -, -, -, -, -, -, -, -, h12, -, -, -, -, -, -⟩ :=
    mutations_net_effect sampleData
  exact h12 2 0 sampleTask rfl (by decide)

end HardbanRecords
